import Mathlib

/-!
Verification of the reverse-Christmas-tree declaration-order checker
(src/xmastree.py). The per-line scanner `check_file` is embedded as a
state machine `checkStep` over `CheckState`, with the Python string
operations modelled as executable functions on `String.data`.
-/

namespace Xmas

/-! ### Python string primitives -/

/-- Model of the Python whitespace class used by `str.strip` (ASCII part). -/
def isPySpace (c : Char) : Bool :=
  c == ' ' || c == '\t' || c == '\n' || c == '\r' || c == '\x0b' || c == '\x0c'

/-- List-level model of `str.startswith`. -/
def pfx : List Char → List Char → Bool
  | [], _ => true
  | _ :: _, [] => false
  | a :: as, b :: bs => a == b && pfx as bs

/-- Model of Python `line.startswith(p)`. -/
def startsW (s p : String) : Bool := pfx p.data s.data

/-- Model of Python slicing `s[n:]`. -/
def pyDrop (s : String) (n : Nat) : String := ⟨s.data.drop n⟩

/-- Remove trailing Python whitespace from a character list. -/
def dropTrail (l : List Char) : List Char := (l.reverse.dropWhile isPySpace).reverse

/-- Model of Python `s.strip()`. -/
def pyStrip (s : String) : String := ⟨dropTrail (s.data.dropWhile isPySpace)⟩

/-- Model of Python `c in s` for a single character. -/
def contChar (s : String) (c : Char) : Bool := s.data.contains c

/-- Count of non-overlapping occurrences of the two-character pattern `a b`,
scanning left to right: the model of Python `s.count(p)` for the two-character
patterns used by the checker. -/
def count2 (a b : Char) : List Char → Nat
  | x :: y :: rest =>
    if x == a && y == b then 1 + count2 a b rest else count2 a b (y :: rest)
  | _ => 0

/-- List-level substring occurrence test. -/
def hasSubL (sub : List Char) : List Char → Bool
  | [] => pfx sub []
  | c :: cs => pfx sub (c :: cs) || hasSubL sub cs

/-- Model of Python `sub in s`. -/
def hasSub (s sub : String) : Bool := hasSubL sub.data s.data

/-- Split a character list at the first occurrence of `sep`, returning the
part before and the part after, or `none` when `sep` does not occur. -/
def partitionList (sep : List Char) : List Char → Option (List Char × List Char)
  | [] => if pfx sep [] then some ([], []) else none
  | c :: cs =>
    if pfx sep (c :: cs) then some ([], (c :: cs).drop sep.length)
    else
      match partitionList sep cs with
      | some (b, a) => some (c :: b, a)
      | none => none

/-- Model of Python `s.partition(sep)`, keeping the before and after parts. -/
def pyPartition (s sep : String) : String × String :=
  match partitionList sep.data s.data with
  | some (b, a) => (⟨b⟩, ⟨a⟩)
  | none => (s, "")

/-! ### The location regular expression -/

/-- Split a maximal leading run of ASCII digits off a character list. -/
def digitSpan : List Char → List Char × List Char
  | [] => ([], [])
  | c :: cs =>
    if c.isDigit then
      let p := digitSpan cs
      (c :: p.1, p.2)
    else ([], c :: cs)

/-- Numeric value of a digit run, as produced by Python `int`. -/
def natOfDigits (l : List Char) : Nat :=
  l.foldl (fun a c => a * 10 + (c.toNat - 48)) 0

/-- Attempt to match the pattern `-<d+>,<d+> +<d+>,<d+>` at the head of the
list, returning the first capture group (the new-file start offset). -/
def matchLocAt (cs : List Char) : Option Nat :=
  match cs with
  | '-' :: r0 =>
    let p1 := digitSpan r0
    if p1.1.isEmpty then none
    else
      match p1.2 with
      | ',' :: r2 =>
        let p2 := digitSpan r2
        if p2.1.isEmpty then none
        else
          match p2.2 with
          | ' ' :: '+' :: r4 =>
            let p3 := digitSpan r4
            if p3.1.isEmpty then none
            else
              match p3.2 with
              | ',' :: r6 =>
                let p4 := digitSpan r6
                if p4.1.isEmpty then none else some (natOfDigits p3.1)
              | _ => none
          | _ => none
      | _ => none
  | _ => none

/-- Model of `location_re.search`: leftmost match of the location pattern. -/
def searchLoc : List Char → Option Nat
  | [] => none
  | c :: cs =>
    match matchLocAt (c :: cs) with
    | some n => some n
    | none => searchLoc cs

/-! ### Keyword classifier (source lines 16-41) -/

def primitive_types : List String :=
  ["signed", "unsigned", "char", "short", "int", "long",
   "size_t", "intptr_t", "uintptr_t", "void",
   "bool", "float", "double", "struct", "union", "enum"]

def kernel_typedefs : List String :=
  ["u8", "u16", "u32", "u64", "s8", "s16", "s32", "s64", "cpumask_var_t"]

def storage_classes : List String :=
  ["auto", "static", "register", "extern"]

def type_qualifiers : List String :=
  ["const", "volatile", "restrict"]

def decl_openers : List String :=
  primitive_types ++ kernel_typedefs ++ storage_classes ++ type_qualifiers

/-- Model of `is_decl`: the first word of the line, up to the first space
character, is looked up in the keyword set. -/
def is_decl (line : String) : Bool :=
  decl_openers.contains (pyPartition line " ").1

/-! ### The scanner state machine (source lines 45-127) -/

structure CheckState where
  last_decl : Option (String × Bool)
  in_comment : Bool
  in_struct : Option String
  in_function : Option String
  is_diff : Bool
  li : Nat
  viols : List (String × String × Nat)
deriving DecidableEq

/-- Python truthiness of an `in_function` or `in_struct` slot, which holds
either `False` or a string: truthy exactly for a nonempty string. -/
def truthy : Option String → Bool
  | none => false
  | some s => !s.isEmpty

def initState : CheckState :=
  { last_decl := none, in_comment := false, in_struct := none,
    in_function := none, is_diff := false, li := 0, viols := [] }

/-- Drop the leading diff marker, as in source lines 80-82. -/
def markerStrip (line : String) : String :=
  if startsW line "+" || startsW line " " then pyDrop line 1 else line

/-- Was the line a diff addition (source lines 79-81). -/
def plusFlag (line : String) : Bool := startsW line "+"

/-- Comment state after counting the comment delimiters on the line
(source lines 84-89). -/
def commentAfter (inc : Bool) (body : String) : Bool :=
  let co := count2 '/' '*' body.data
  let cc := count2 '*' '/' body.data
  if co > cc then true else if cc > co then false else inc

/-- The new-file start offset parsed from a hunk header line
(source lines 61-64). -/
def newFileStart (line : String) : Option Nat :=
  searchLoc ((pyPartition (pyDrop line 2) "@@").1).data

/-- The trailing context text of a hunk header line (source line 61). -/
def hunkContext (line : String) : String := (pyPartition (pyDrop line 2) "@@").2

/-- The hunk-header block of the scanner (source lines 59-71), applied to the
state after the line-counter increment. -/
def headerUpdate (st : CheckState) (line : String) : CheckState :=
  let li1 :=
    match newFileStart line with
    | some n => n
    | none => st.li
  let context := hunkContext line
  if contChar context ':' || contChar context '(' then
    { st with
      is_diff := true
      li := li1
      in_comment := false
      in_struct := none
      in_function := some (pyStrip context) }
  else if hasSub context "struct" || hasSub context "enum" || hasSub context "union" then
    { st with
      is_diff := true
      li := li1
      in_comment := false
      in_struct := some (pyStrip context)
      in_function := none }
  else
    { st with
      is_diff := true
      li := li1
      in_comment := false
      in_struct := none
      in_function := none }

/-- The declaration-order detector acting on the trimmed content of an
indented line (source lines 119-126). -/
def detectorStep (st : CheckState) (plus : Bool) (content : String) : CheckState :=
  if is_decl content && truthy st.in_function then
    match st.last_decl with
    | some l =>
      if (plus || l.2 || !st.is_diff) && decide (l.1.length < content.length) then
        { st with
          viols := st.viols ++ [(l.1, content, st.li)]
          last_decl := some (content, plus) }
      else
        { st with last_decl := some (content, plus) }
    | none => { st with last_decl := some (content, plus) }
  else if content ≠ "" then { st with last_decl := none }
  else st

/-- The unindented-line branch of the scanner (source lines 105-117). -/
def unindented (st : CheckState) (body : String) : CheckState :=
  if startsW body "\x7b" then
    { st with
      in_function := some (pyStrip body)
      in_struct := none
      last_decl := none }
  else if contChar body '\x7b' then
    { st with in_function := none, in_struct := some (pyStrip body) }
  else
    { st with in_function := none, in_struct := none }

/-- The comment, preprocessor, brace and content handling of the scanner
applied to the marker-stripped body of a non-removed line
(source lines 83-126). -/
def bodyScan (st : CheckState) (plus : Bool) (body : String) : CheckState :=
  let inc := commentAfter st.in_comment body
  let stC : CheckState := { st with in_comment := inc }
  if inc then stC
  else if startsW (pyStrip body) "/*" then stC
  else if startsW body "#" then stC
  else
    let stD : CheckState :=
      if startsW body "\x7d" then
        { stC with in_struct := none, in_function := none, in_comment := false }
      else stC
    if !startsW body "\t" then unindented stD body
    else detectorStep stD plus (pyStrip body)

/-- One iteration of the scanner loop of `check_file` (source lines 54-126). -/
def checkStep (st : CheckState) (line : String) : CheckState :=
  let stA : CheckState := { st with li := st.li + 1 }
  let stB : CheckState := if startsW line "@@" then headerUpdate stA line else stA
  if startsW line "-" then { stB with li := stB.li - 1 }
  else bodyScan stB (plusFlag line) (markerStrip line)

/-- Model of `check_file`: fold the scanner over the lines of the input and
return the collected violations. -/
def check_file (lines : List String) : List (String × String × Nat) :=
  (lines.foldl checkStep initState).viols

/-! ### Spec-side definitions for refinement comparisons -/

/-- Modelled from the spec: the first whitespace-delimited token of a line,
used to compare the keyword-classifier contract against the code. -/
def firstWsToken (s : String) : String :=
  ⟨(s.data.dropWhile isPySpace).takeWhile (fun c => !isPySpace c)⟩

/-- Modelled from the spec: the line-counter rule. A hunk header re-seeds the
counter from the new-file start offset of the header, a removed line does not
advance it, and every other line advances it by one. -/
def specNextLi (li : Nat) (line : String) : Nat :=
  if startsW line "@@" then
    match newFileStart line with
    | some n => n
    | none => li + 1
  else if startsW line "-" then li
  else li + 1

/-- The function and struct contexts are simultaneously truthy. -/
def bothCtx (st : CheckState) : Prop :=
  truthy st.in_function = true ∧ truthy st.in_struct = true

/-- A scanner state inside a function with a retained declaration, used as a
concrete instantiation for the conditional theorems. -/
def fnRunState : CheckState :=
  { initState with in_function := some "\x7b", last_decl := some ("int x;", false) }

/-- A scanner state inside a comment within a function, with a retained
declaration. -/
def cmtState : CheckState :=
  { initState with
    in_comment := true
    in_function := some "\x7b"
    last_decl := some ("int x;", false) }

/-! ### Lemmas about the classifier and string primitives -/

lemma partitionList_space (l : List Char) :
    (match partitionList [' '] l with
     | some p => p.1
     | none => l) = l.takeWhile (fun c => !(c == ' ')) := by
  induction l with
  | nil => rfl
  | cons c cs ih =>
    by_cases h : c = ' '
    · subst h
      simp [partitionList, pfx, List.takeWhile_cons]
    · have hb : ((' ' : Char) == c) = false := by
        simp [beq_eq_false_iff_ne]
        exact fun he => h he.symm
      have hb2 : (c == ' ') = false := by
        simp [beq_eq_false_iff_ne, h]
      simp only [partitionList, pfx, hb, Bool.false_and, Bool.and_self,
        if_neg Bool.false_ne_true, List.takeWhile_cons, hb2, Bool.not_false,
        if_pos trivial]
      cases hp : partitionList [' '] cs with
      | some p =>
        rw [hp] at ih
        cases p with
        | mk b a => simpa using ih
      | none =>
        rw [hp] at ih
        simpa using ih

lemma pyPartition_space_fst (s : String) :
    (pyPartition s " ").1 = ⟨s.data.takeWhile (fun c => !(c == ' '))⟩ := by
  have h := partitionList_space s.data
  unfold pyPartition
  have hsep : (" " : String).data = [' '] := rfl
  rw [hsep]
  cases hp : partitionList [' '] s.data with
  | some p =>
    rw [hp] at h
    cases p with
    | mk b a => simp at h ⊢; rw [h]
  | none =>
    rw [hp] at h
    simp
    exact congrArg String.mk h

lemma pfx_head_ex {a : Char} {as l : List Char} (h : pfx (a :: as) l = true) :
    ∃ cs, l = a :: cs ∧ pfx as cs = true := by
  cases l with
  | nil => simp [pfx] at h
  | cons b bs =>
    simp only [pfx, Bool.and_eq_true, beq_iff_eq] at h
    exact ⟨bs, by rw [h.1], h.2⟩

lemma pfx_head_ne {a b : Char} {as bs : List Char} (h : (a == b) = false) :
    pfx (a :: as) (b :: bs) = false := by simp [pfx, h]

lemma pfx_one_false {s : String} {a b : Char} {cs : List Char}
    (hd : s.data = b :: cs) (h : (a == b) = false) :
    pfx [a] s.data = false := by
  rw [hd]; exact pfx_head_ne h

lemma header_shape {line : String} (h : startsW line "@@" = true) :
    ∃ cs, line.data = '@' :: cs := by
  have h' : pfx ('@' :: ['@']) line.data = true := h
  obtain ⟨cs, hcs, _⟩ := pfx_head_ex h'
  exact ⟨cs, hcs⟩

lemma header_not_minus {line : String} (h : startsW line "@@" = true) :
    startsW line "-" = false := by
  obtain ⟨cs, hcs⟩ := header_shape h
  exact pfx_one_false hcs (by decide)

lemma header_not_tab {line : String} (h : startsW line "@@" = true) :
    startsW line "\t" = false := by
  obtain ⟨cs, hcs⟩ := header_shape h
  exact pfx_one_false hcs (by decide)

lemma header_markerStrip {line : String} (h : startsW line "@@" = true) :
    markerStrip line = line := by
  obtain ⟨cs, hcs⟩ := header_shape h
  unfold markerStrip
  rw [show startsW line "+" = false from pfx_one_false hcs (by decide),
    show startsW line " " = false from pfx_one_false hcs (by decide)]
  rfl

lemma strip_empty_all (s : String) (h : pyStrip s = "") :
    ∀ c ∈ s.data, isPySpace c = true := by
  unfold pyStrip dropTrail at h
  have hdata : ((s.data.dropWhile isPySpace).reverse.dropWhile isPySpace).reverse = [] :=
    congrArg String.data h
  rw [List.reverse_eq_nil_iff] at hdata
  rw [List.dropWhile_eq_nil_iff] at hdata
  have hdrop : ∀ c ∈ s.data.dropWhile isPySpace, isPySpace c = true := by
    intro c hc
    exact hdata c (List.mem_reverse.mpr hc)
  intro c hc
  rw [← List.takeWhile_append_dropWhile (p := isPySpace) (l := s.data)] at hc
  rcases List.mem_append.mp hc with h1 | h1
  · exact List.mem_takeWhile_imp h1
  · exact hdrop c h1

lemma all_space_count2 (a b : Char) (ha : isPySpace a = false) (l : List Char)
    (h : ∀ c ∈ l, isPySpace c = true) : count2 a b l = 0 := by
  induction l with
  | nil => rfl
  | cons c cs ih =>
    cases cs with
    | nil => rfl
    | cons d ds =>
      have hc : isPySpace c = true := h c (by simp)
      have hca : (c == a) = false := by
        by_cases hq : c = a
        · rw [hq] at hc; rw [hc] at ha; cases ha
        · simp [hq]
      simp only [count2, hca, Bool.false_and, if_neg Bool.false_ne_true]
      exact ih fun x hx => h x (by simp [hx])

lemma all_space_not_head (d : Char) (hd : isPySpace d = false) (l : List Char)
    (h : ∀ c ∈ l, isPySpace c = true) : pfx [d] l = false := by
  cases l with
  | nil => rfl
  | cons c cs =>
    have hc := h c (by simp)
    have hdc : (d == c) = false := by
      by_cases hq : d = c
      · rw [hq] at hd; rw [hc] at hd; cases hd
      · simp [hq]
    simp [pfx, hdc]

lemma all_space_contains (d : Char) (hd : isPySpace d = false) (l : List Char)
    (h : ∀ c ∈ l, isPySpace c = true) : l.contains d = false := by
  by_contra hx
  have hmem : d ∈ l := by
    have : l.contains d = true := by
      cases hcl : l.contains d
      · exact absurd hcl hx
      · rfl
    simpa using this
  rw [h d hmem] at hd
  cases hd

/-! ### Walk lemmas for the scanner step -/

lemma detectorStep_li (st : CheckState) (p : Bool) (c : String) :
    (detectorStep st p c).li = st.li := by
  unfold detectorStep
  (repeat' split) <;> rfl

lemma unindented_li (st : CheckState) (b : String) :
    (unindented st b).li = st.li := by
  unfold unindented
  (repeat' split) <;> rfl

lemma bodyScan_li (st : CheckState) (p : Bool) (b : String) :
    (bodyScan st p b).li = st.li := by
  unfold bodyScan
  by_cases h0 : commentAfter st.in_comment b = true
  · simp [h0]
  · rw [if_neg h0]
    split_ifs <;> simp [detectorStep_li, unindented_li]

lemma headerUpdate_li (st : CheckState) (line : String) :
    (headerUpdate st line).li =
      match newFileStart line with
      | some n => n
      | none => st.li := by
  unfold headerUpdate
  (repeat' split) <;> simp <;> split_ifs <;> rfl

lemma step_li (st : CheckState) (line : String) :
    (checkStep st line).li = specNextLi st.li line := by
  simp only [checkStep, specNextLi]
  by_cases h1 : startsW line "@@" = true
  · rw [if_pos h1, if_pos h1, if_neg (by rw [header_not_minus h1]; exact Bool.false_ne_true),
      bodyScan_li, headerUpdate_li]
  · rw [if_neg (h1 ∘ of_eq_true ∘ eq_true), if_neg h1]
    by_cases h2 : startsW line "-" = true
    · rw [if_pos h2, if_pos h2]; simp
    · rw [if_neg h2, if_neg h2, bodyScan_li]

lemma detectorStep_is_diff (st : CheckState) (p : Bool) (c : String) :
    (detectorStep st p c).is_diff = st.is_diff := by
  unfold detectorStep
  (repeat' split) <;> rfl

lemma unindented_is_diff (st : CheckState) (b : String) :
    (unindented st b).is_diff = st.is_diff := by
  unfold unindented
  (repeat' split) <;> rfl

lemma bodyScan_is_diff (st : CheckState) (p : Bool) (b : String) :
    (bodyScan st p b).is_diff = st.is_diff := by
  unfold bodyScan
  by_cases h0 : commentAfter st.in_comment b = true
  · simp [h0]
  · rw [if_neg h0]
    split_ifs <;> simp [detectorStep_is_diff, unindented_is_diff]

lemma headerUpdate_is_diff (st : CheckState) (line : String) :
    (headerUpdate st line).is_diff = true := by
  unfold headerUpdate
  (repeat' split) <;> simp <;> split_ifs <;> rfl

lemma step_is_diff (st : CheckState) (line : String) :
    (checkStep st line).is_diff = (st.is_diff || startsW line "@@") := by
  simp only [checkStep]
  by_cases h1 : startsW line "@@" = true
  · rw [if_pos h1, if_neg (by rw [header_not_minus h1]; exact Bool.false_ne_true),
      bodyScan_is_diff, headerUpdate_is_diff, h1, Bool.or_true]
  · rw [if_neg h1]
    by_cases h2 : startsW line "-" = true
    · rw [if_pos h2]
      simp [eq_false_of_ne_true h1]
    · rw [if_neg h2, bodyScan_is_diff]
      simp [eq_false_of_ne_true h1]

lemma detectorStep_viols_shape (st : CheckState) (p : Bool) (c : String) :
    (detectorStep st p c).viols = st.viols ∨
    ∃ a b, (detectorStep st p c).viols = st.viols ++ [(a, b, st.li)] := by
  unfold detectorStep
  (repeat' split) <;> first
    | (left; rfl)
    | (right; exact ⟨_, _, rfl⟩)

lemma unindented_viols (st : CheckState) (b : String) :
    (unindented st b).viols = st.viols := by
  unfold unindented
  (repeat' split) <;> rfl

lemma headerUpdate_viols (st : CheckState) (line : String) :
    (headerUpdate st line).viols = st.viols := by
  unfold headerUpdate
  (repeat' split) <;> simp <;> split_ifs <;> rfl

lemma bodyScan_viols_shape (st : CheckState) (p : Bool) (b : String) :
    (bodyScan st p b).viols = st.viols ∨
    ∃ a b2, (bodyScan st p b).viols = st.viols ++ [(a, b2, st.li)] := by
  unfold bodyScan
  by_cases h0 : commentAfter st.in_comment b = true
  · simp [h0]
  · rw [if_neg h0]
    split_ifs <;>
      first
        | (left; rfl)
        | (left; rw [unindented_viols])
        | (exact detectorStep_viols_shape _ p (pyStrip b))

lemma step_viols_shape (st : CheckState) (line : String) :
    (checkStep st line).viols = st.viols ∨
    ∃ a b, (checkStep st line).viols = st.viols ++ [(a, b, (checkStep st line).li)] := by
  simp only [checkStep]
  by_cases h1 : startsW line "@@" = true
  · rw [if_neg (by rw [header_not_minus h1]; exact Bool.false_ne_true)]
    rw [if_pos h1, bodyScan_li]
    have h := bodyScan_viols_shape (headerUpdate
      { st with li := st.li + 1 } line) (plusFlag line) (markerStrip line)
    rw [headerUpdate_viols] at h
    exact h
  · rw [if_neg h1]
    by_cases h2 : startsW line "-" = true
    · rw [if_pos h2]; left; rfl
    · rw [if_neg h2, bodyScan_li]
      exact bodyScan_viols_shape _ (plusFlag line) (markerStrip line)

lemma detectorStep_ctx (st : CheckState) (p : Bool) (c : String) :
    (detectorStep st p c).in_function = st.in_function ∧
    (detectorStep st p c).in_struct = st.in_struct := by
  unfold detectorStep
  (repeat' split) <;> exact ⟨rfl, rfl⟩

lemma unindented_not_both (st : CheckState) (b : String) :
    ¬bothCtx (unindented st b) := by
  unfold unindented bothCtx
  (repeat' split) <;> simp [truthy]

lemma headerUpdate_not_both (st : CheckState) (line : String) :
    ¬bothCtx (headerUpdate st line) := by
  unfold headerUpdate bothCtx
  (repeat' split) <;> dsimp only <;> split_ifs <;> simp [truthy]

lemma bodyScan_not_both (st : CheckState) (p : Bool) (b : String)
    (h : ¬bothCtx st) : ¬bothCtx (bodyScan st p b) := by
  unfold bodyScan
  by_cases h0 : commentAfter st.in_comment b = true
  · simpa [h0, bothCtx] using h
  · rw [if_neg h0]
    split_ifs with hf hp hbr htab htab2
    · simpa [bothCtx] using h
    · simpa [bothCtx] using h
    · exact unindented_not_both _ b
    · have hc := detectorStep_ctx
        { st with in_comment := false, in_struct := none, in_function := none }
        p (pyStrip b)
      unfold bothCtx
      rw [hc.1, hc.2]
      simp [truthy]
    · exact unindented_not_both _ b
    · have hc := detectorStep_ctx { st with in_comment := commentAfter st.in_comment b }
        p (pyStrip b)
      unfold bothCtx
      rw [hc.1, hc.2]
      simpa [bothCtx] using h

lemma step_not_both (st : CheckState) (line : String)
    (h : ¬bothCtx st) : ¬bothCtx (checkStep st line) := by
  simp only [checkStep]
  by_cases h1 : startsW line "@@" = true
  · rw [if_pos h1, if_neg (by rw [header_not_minus h1]; exact Bool.false_ne_true)]
    exact bodyScan_not_both _ _ _ (headerUpdate_not_both _ line)
  · rw [if_neg h1]
    by_cases h2 : startsW line "-" = true
    · rw [if_pos h2]
      simpa [bothCtx] using h
    · rw [if_neg h2]
      exact bodyScan_not_both _ _ _ (by simpa [bothCtx] using h)

lemma scan_not_both (lines : List String) :
    ¬bothCtx (lines.foldl checkStep initState) := by
  have gen : ∀ (ls : List String) (st : CheckState), ¬bothCtx st →
      ¬bothCtx (ls.foldl checkStep st) := by
    intro ls
    induction ls with
    | nil => intro st h; simpa using h
    | cons l ls ih =>
      intro st h
      exact ih _ (step_not_both st l h)
  exact gen lines initState (by simp [bothCtx, initState, truthy])

lemma detectorStep_viols_of_not_fn (st : CheckState) (p : Bool) (c : String)
    (h : truthy st.in_function = false) :
    (detectorStep st p c).viols = st.viols := by
  unfold detectorStep
  rw [if_neg (by rw [h, Bool.and_false]; exact Bool.false_ne_true)]
  split <;> rfl

lemma bodyScan_viols_of_not_fn (st : CheckState) (p : Bool) (b : String)
    (h : truthy st.in_function = false) :
    (bodyScan st p b).viols = st.viols := by
  unfold bodyScan
  by_cases h0 : commentAfter st.in_comment b = true
  · simp [h0]
  · rw [if_neg h0]
    split_ifs with hf hp hbr htab htab2
    · rfl
    · rfl
    · rw [unindented_viols]
    · dsimp only
      rw [detectorStep_viols_of_not_fn]
      rfl
    · rw [unindented_viols]
    · dsimp only
      rw [detectorStep_viols_of_not_fn]
      exact h

lemma bodyScan_viols_of_not_tab (st : CheckState) (p : Bool) (b : String)
    (h : startsW b "\t" = false) :
    (bodyScan st p b).viols = st.viols := by
  unfold bodyScan
  by_cases h0 : commentAfter st.in_comment b = true
  · simp [h0]
  · rw [if_neg h0]
    split_ifs with hf hp hbr htab htab2
    · rfl
    · rfl
    · rw [unindented_viols]
    · rw [h] at htab; exact absurd htab (by decide)
    · rw [unindented_viols]
    · rw [h] at htab2; exact absurd htab2 (by decide)

lemma step_viols_of_not_fn (st : CheckState) (line : String)
    (h : truthy st.in_function = false) :
    (checkStep st line).viols = st.viols := by
  simp only [checkStep]
  by_cases h1 : startsW line "@@" = true
  · rw [if_pos h1, if_neg (by rw [header_not_minus h1]; exact Bool.false_ne_true)]
    rw [header_markerStrip h1]
    rw [bodyScan_viols_of_not_tab _ _ _ (header_not_tab h1), headerUpdate_viols]
  · rw [if_neg h1]
    by_cases h2 : startsW line "-" = true
    · rw [if_pos h2]
    · rw [if_neg h2]
      exact bodyScan_viols_of_not_fn _ _ _ h

lemma step_detector_form (st : CheckState) (line : String)
    (h1 : startsW line "@@" = false)
    (h2 : startsW line "-" = false)
    (h3 : commentAfter st.in_comment (markerStrip line) = false)
    (h4 : startsW (pyStrip (markerStrip line)) "/*" = false)
    (h5 : startsW (markerStrip line) "#" = false)
    (h6 : startsW (markerStrip line) "\x7d" = false)
    (h7 : startsW (markerStrip line) "\t" = true) :
    checkStep st line =
      detectorStep { st with li := st.li + 1, in_comment := false }
        (plusFlag line) (pyStrip (markerStrip line)) := by
  simp [checkStep, bodyScan, h1, h2, h3, h4, h5, h6, h7]

lemma detectorStep_in_comment (st : CheckState) (p : Bool) (c : String) :
    (detectorStep st p c).in_comment = st.in_comment := by
  unfold detectorStep
  (repeat' split) <;> rfl

/-- Claim C1: for every line handed to the Declaration-Order Detector (a
non-removed, non-header, marker-stripped, tab-indented line that is not
skipped as comment or preprocessor content), a violation is recorded exactly
when the line is a declaration, the tracker is inside a function, a previous
declaration is retained, the comparison-eligibility predicate holds (the
current line was added, or the retained line was added, or the input is not
a diff), and the trimmed length of the current line strictly exceeds the
trimmed length of the retained line. -/
theorem c1_detector_exact (st : CheckState) (line : String)
    (h1 : startsW line "@@" = false)
    (h2 : startsW line "-" = false)
    (h3 : commentAfter st.in_comment (markerStrip line) = false)
    (h4 : startsW (pyStrip (markerStrip line)) "/*" = false)
    (h5 : startsW (markerStrip line) "#" = false)
    (h6 : startsW (markerStrip line) "\x7d" = false)
    (h7 : startsW (markerStrip line) "\t" = true) :
    ((checkStep st line).viols ≠ st.viols ↔
      (is_decl (pyStrip (markerStrip line)) = true ∧
       truthy st.in_function = true ∧
       ∃ l, st.last_decl = some l ∧
         (plusFlag line = true ∨ l.2 = true ∨ st.is_diff = false) ∧
         l.1.length < (pyStrip (markerStrip line)).length)) ∧
    ((checkStep st line).viols ≠ st.viols →
      ∃ l, st.last_decl = some l ∧
        (checkStep st line).viols =
          st.viols ++ [(l.1, pyStrip (markerStrip line), st.li + 1)]) := by
  rw [step_detector_form st line h1 h2 h3 h4 h5 h6 h7]
  unfold detectorStep
  rcases hld : st.last_decl with _ | ⟨t, a⟩ <;>
    by_cases hd : is_decl (pyStrip (markerStrip line)) = true <;>
    by_cases hf : truthy st.in_function = true
  · simp [hld, hd, hf]
  · simp [hld, hd, hf]
  · simp [hld, hd, hf]
  · simp [hld, hd, hf]
  · by_cases hc : (((plusFlag line = true ∨ a = true) ∨ st.is_diff = false) ∧
        t.length < (pyStrip (markerStrip line)).length)
    · simp [hld, hd, hf, hc]
      tauto
    · simp [hld, hd, hf, hc]
      intro h
      exact Nat.le_of_not_lt fun hlt => hc ⟨by tauto, hlt⟩
  · simp [hld, hd, hf]
    try (split <;> simp)
  · simp [hld, hd, hf]
    try (split <;> simp)
  · simp [hld, hd, hf]
    try (split <;> simp)

/-- Claim C1 witness: a concrete in-function state and declaration line on
which the detector records a violation. -/
theorem c1_detector_exact_witness :
    (checkStep fnRunState "\tlong long y;").viols ≠ fnRunState.viols :=
  (c1_detector_exact fnRunState "\tlong long y;" (by decide) (by decide)
      (by decide) (by decide) (by decide) (by decide) (by decide)).1.mpr
    ⟨by decide, by decide, ("int x;", false), by decide,
      Or.inr (Or.inr (by decide)), by decide⟩

/-! ### Claim C2 -/

/-- C2 is refuted as stated: the keyword classifier splits on the space
character only, so the line `"int\tx;"`, whose first whitespace-delimited
token is `int` (a keyword in the set), is classified as not a declaration. -/
theorem c2_whitespace_token_counterexample :
    decl_openers.contains (firstWsToken "int\tx;") = true ∧
    is_decl "int\tx;" = false := by decide

/-- C2 (amended): the Keyword Classifier returns true exactly when the prefix
of the line before the first space character (space only, not general
whitespace) is one of the enumerated declaration-opener tokens; in
particular the empty line yields false. -/
theorem c2_first_space_token :
    (∀ line : String,
      is_decl line =
        decl_openers.contains ⟨line.data.takeWhile (fun c => !(c == ' '))⟩) ∧
    is_decl "" = false := by
  constructor
  · intro line
    unfold is_decl
    rw [pyPartition_space_fst]
  · decide

/-! ### Claim C3 -/

/-- C3: the code contradicts it. The hunk-header block classifies the trailing
context (here containing a parenthesis, so it stores the function
descriptor), but the header line then falls through to the unindented-line
branch of the same iteration, which clears the function and struct state
again. After processing the header the tracker is NOT in function state. -/
theorem c3_header_function_clobbered :
    contChar (hunkContext "@@ -1,2 +3,4 @@ int foo(void)") '(' = true ∧
    (checkStep initState "@@ -1,2 +3,4 @@ int foo(void)").in_function = none ∧
    (checkStep initState "@@ -1,2 +3,4 @@ int foo(void)").in_struct = none ∧
    (checkStep initState "@@ -1,2 +3,4 @@ int foo(void)").li = 3 := by decide

/-! ### Claim C4 -/

/-- Claim C4: the third component of every recorded violation equals the
line counter value at the flagged line, where the counter follows the spec
rule `specNextLi`: a hunk header re-seeds it from the new-file start offset
of the header, a removed line does not advance it, and every other line
advances it by one. -/
theorem c4_line_numbers (st : CheckState) (line : String) :
    (checkStep st line).li = specNextLi st.li line ∧
    ∀ v ∈ (checkStep st line).viols,
      v ∈ st.viols ∨ v.2.2 = specNextLi st.li line := by
  refine ⟨step_li st line, ?_⟩
  intro v hv
  rcases step_viols_shape st line with h | ⟨a, b, h⟩
  · rw [h] at hv
    exact Or.inl hv
  · rw [h] at hv
    rcases List.mem_append.mp hv with h2 | h2
    · exact Or.inl h2
    · right
      rw [List.mem_singleton] at h2
      rw [h2]
      exact step_li st line

/-- Claim C4 witness: the violation recorded for a concrete declaration line
carries the counter value given by the spec rule. -/
theorem c4_line_numbers_witness :
    ("int x;", "long long y;", 1) ∈ fnRunState.viols ∨
    ("int x;", "long long y;", (1 : Nat)).2.2 =
      specNextLi fnRunState.li "\tlong long y;" :=
  (c4_line_numbers fnRunState "\tlong long y;").2
    ("int x;", "long long y;", 1) (by decide)

/-! ### Claim C5 -/

/-- C5 is refuted as stated: the closing brace line ends the function context
but the retained declaration slot is not cleared by it. -/
theorem c5_function_end_counterexample :
    (["\x7b", "\tint x;", "\x7d"].foldl checkStep initState).in_function
      = none ∧
    (["\x7b", "\tint x;", "\x7d"].foldl checkStep initState).last_decl
      = some ("int x;", false) := by decide

/-- Claim C5 (amended): the retained declaration slot is cleared whenever a
non-declaration, non-blank line reaches the indented content scan; the end
of the function context by itself does not clear the slot (see the
counterexample), and an unindented opening-brace line clears it separately. -/
theorem c5_run_clear_amended (st : CheckState) (line : String)
    (h1 : startsW line "@@" = false)
    (h2 : startsW line "-" = false)
    (h3 : commentAfter st.in_comment (markerStrip line) = false)
    (h4 : startsW (pyStrip (markerStrip line)) "/*" = false)
    (h5 : startsW (markerStrip line) "#" = false)
    (h6 : startsW (markerStrip line) "\x7d" = false)
    (h7 : startsW (markerStrip line) "\t" = true)
    (hne : pyStrip (markerStrip line) ≠ "")
    (hnd : is_decl (pyStrip (markerStrip line)) = false) :
    (checkStep st line).last_decl = none := by
  rw [step_detector_form st line h1 h2 h3 h4 h5 h6 h7]
  simp [detectorStep, hnd, hne]

/-- Claim C5 witness: a concrete non-declaration statement line clears the
retained declaration. -/
theorem c5_run_clear_witness :
    (checkStep fnRunState "\tfoo();").last_decl = none :=
  c5_run_clear_amended fnRunState "\tfoo();" (by decide) (by decide) (by decide)
    (by decide) (by decide) (by decide) (by decide) (by decide) (by decide)

/-! ### Claim C6 -/

/-- C6 is refuted as stated: an entirely empty line (trimmed content empty,
no leading tab) is not a no-op on the scanner state; it clears the function
context. -/
theorem c6_blank_counterexample :
    pyStrip (markerStrip "") = "" ∧
    (checkStep initState "\x7b").in_function = some "\x7b" ∧
    (checkStep (checkStep initState "\x7b") "").in_function = none := by decide

/-- Claim C6 (amended): a blank line (empty trimmed content) never clears
the retained declaration; while in comment state or when it begins with a
tab it is a no-op apart from the line counter, but a blank line without a
leading tab additionally clears the function and struct context. -/
theorem c6_blank_amended (st : CheckState) (line : String)
    (h1 : startsW line "@@" = false)
    (h2 : startsW line "-" = false)
    (h3 : pyStrip (markerStrip line) = "") :
    (st.in_comment = true → checkStep st line = { st with li := st.li + 1 }) ∧
    (st.in_comment = false → startsW (markerStrip line) "\t" = true →
      checkStep st line = { st with li := st.li + 1 }) ∧
    (st.in_comment = false → startsW (markerStrip line) "\t" = false →
      checkStep st line =
        { st with li := st.li + 1, in_function := none, in_struct := none }) := by
  have hall : ∀ c ∈ (markerStrip line).data, isPySpace c = true :=
    strip_empty_all _ h3
  have hca : commentAfter st.in_comment (markerStrip line) = st.in_comment := by
    unfold commentAfter
    rw [all_space_count2 '/' '*' (by decide) _ hall,
        all_space_count2 '*' '/' (by decide) _ hall]
    simp
  have hsharp : startsW (markerStrip line) "#" = false :=
    all_space_not_head '#' (by decide) _ hall
  have hbrace : startsW (markerStrip line) "\x7d" = false :=
    all_space_not_head '\x7d' (by decide) _ hall
  have hob : startsW (markerStrip line) "\x7b" = false :=
    all_space_not_head '\x7b' (by decide) _ hall
  have hcont : contChar (markerStrip line) '\x7b' = false :=
    all_space_contains '\x7b' (by decide) _ hall
  have hfl : startsW (pyStrip (markerStrip line)) "/*" = false := by
    rw [h3]; rfl
  have hid : is_decl "" = false := by decide
  refine ⟨?_, ?_, ?_⟩
  · intro hin
    rw [hin] at hca
    simp [checkStep, bodyScan, h1, h2, hca, hin]
  · intro hin htab
    rw [hin] at hca
    simp [checkStep, bodyScan, detectorStep, h1, h2, hca, hin, hfl, hsharp,
      hbrace, htab, h3, hid]
  · intro hin htab
    rw [hin] at hca
    simp [checkStep, bodyScan, unindented, h1, h2, hca, hin, hfl, hsharp,
      hbrace, hob, hcont, htab, h3]
    exact fun hx => absurd hx (by decide)

/-- Claim C6 witness: a tab-only blank line inside a function changes
nothing but the line counter. -/
theorem c6_blank_witness :
    checkStep fnRunState "\t" = { fnRunState with li := fnRunState.li + 1 } :=
  (c6_blank_amended fnRunState "\t" (by decide) (by decide) (by decide)).2.1
    (by decide) (by decide)

/-! ### Claim C7 -/

/-- Claim C8: the function state and struct-like state are never truthy
simultaneously in any reachable scanner state, and a scan step taken from a
state whose struct-like context is truthy never records a violation. -/
theorem c8_struct_no_viol (lines : List String) (line : String) :
    ¬bothCtx (lines.foldl checkStep initState) ∧
    (truthy (lines.foldl checkStep initState).in_struct = true →
      (checkStep (lines.foldl checkStep initState) line).viols =
        (lines.foldl checkStep initState).viols) := by
  refine ⟨scan_not_both lines, fun hs => ?_⟩
  apply step_viols_of_not_fn
  cases hf : truthy (lines.foldl checkStep initState).in_function with
  | false => rfl
  | true => exact absurd ⟨hf, hs⟩ (scan_not_both lines)

/-- Claim C8 witness: a concrete struct-body declaration produces no
violation. -/
theorem c8_struct_no_viol_witness :
    (checkStep (["struct foo = \x7b"].foldl checkStep initState)
      "\tint a;").viols =
      (["struct foo = \x7b"].foldl checkStep initState).viols :=
  (c8_struct_no_viol ["struct foo = \x7b"] "\tint a;").2 (by decide)

/-! ### Claim C9 -/

/-- Claim C9: the scan is total, returning a violation list for every list
of input lines, and a hunk header line whose location part does not match
the numeric pattern leaves the line counter advancing by one (not re-seeded)
while processing continues with the diff flag set. -/
theorem c9_total_scan :
    (∀ lines : List String, ∃ vs, check_file lines = vs) ∧
    ∀ (st : CheckState) (line : String),
      startsW line "@@" = true → newFileStart line = none →
      (checkStep st line).li = st.li + 1 ∧ (checkStep st line).is_diff = true := by
  refine ⟨fun lines => ⟨check_file lines, rfl⟩, fun st line hh hm => ⟨?_, ?_⟩⟩
  · rw [step_li]
    simp [specNextLi, hh, hm]
  · rw [step_is_diff, hh, Bool.or_true]

/-- Claim C9 witness: a concrete malformed hunk header advances the counter
by one and sets the diff flag. -/
theorem c9_total_scan_witness :
    (checkStep initState "@@ rubbish @@ f(:").li = initState.li + 1 ∧
    (checkStep initState "@@ rubbish @@ f(:").is_diff = true :=
  c9_total_scan.2 initState "@@ rubbish @@ f(:" (by decide) (by decide)

/-! ### Claim C10 -/

/-- C10 is refuted as stated: a comment-closing line whose trimmed text itself
begins with a comment opener leaves comment state but is then skipped as a
full-line comment, so it does not clear the retained declaration even though
its trimmed text is non-empty and not a declaration. -/
theorem c10_comment_close_counterexample :
    count2 '*' '/' (markerStrip "\t/**/ */").data >
      count2 '/' '*' (markerStrip "\t/**/ */").data ∧
    pyStrip (markerStrip "\t/**/ */") ≠ "" ∧
    is_decl (pyStrip (markerStrip "\t/**/ */")) = false ∧
    (checkStep
      { initState with
        in_comment := true
        in_function := some "\x7b"
        last_decl := some ("int x;", false) } "\t/**/ */").in_comment
      = false ∧
    (checkStep
      { initState with
        in_comment := true
        in_function := some "\x7b"
        last_decl := some ("int x;", false) } "\t/**/ */").last_decl
      = some ("int x;", false) := by decide

/-- Claim C10 (amended): an indented comment-closing line (more closers than
openers) whose trimmed text does not itself begin with a comment opener
leaves comment state and is processed as ordinary content: when that trimmed
text is non-empty and not a declaration it clears the retained declaration,
ending the run. -/
theorem c10_comment_close_amended (st : CheckState) (line : String)
    (h0 : st.in_comment = true)
    (h1 : startsW line "@@" = false)
    (h2 : startsW line "-" = false)
    (hcc : count2 '/' '*' (markerStrip line).data <
      count2 '*' '/' (markerStrip line).data)
    (h4 : startsW (pyStrip (markerStrip line)) "/*" = false)
    (h5 : startsW (markerStrip line) "#" = false)
    (h6 : startsW (markerStrip line) "\x7d" = false)
    (h7 : startsW (markerStrip line) "\t" = true)
    (hne : pyStrip (markerStrip line) ≠ "")
    (hnd : is_decl (pyStrip (markerStrip line)) = false) :
    (checkStep st line).in_comment = false ∧
    (checkStep st line).last_decl = none := by
  have h3 : commentAfter st.in_comment (markerStrip line) = false := by
    unfold commentAfter
    rw [if_neg (by omega), if_pos hcc]
  rw [step_detector_form st line h1 h2 h3 h4 h5 h6 h7]
  constructor
  · rw [detectorStep_in_comment]
  · simp [detectorStep, hnd, hne]

/-- Claim C10 witness: a concrete comment-closing line followed by text
clears the retained declaration and leaves comment state. -/
theorem c10_comment_close_witness :
    (checkStep cmtState "\t */ x").in_comment = false ∧
    (checkStep cmtState "\t */ x").last_decl = none :=
  c10_comment_close_amended cmtState "\t */ x" (by decide) (by decide)
    (by decide) (by decide) (by decide) (by decide) (by decide) (by decide)
    (by decide) (by decide)

end Xmas
